import Mathlib

/-!
Shallow embedding of the AutoPrepML preprocessing pipeline
(`preprocessing.py`) and proofs about the claims of its specification.

Modelling conventions:
* Numeric cell values are exact fractions `Frac` (integer numerator and
  positive denominator, no gcd normalisation).  All comparisons the Python
  code performs on numeric values (`<`, `>`, `==` of pandas/numpy floats)
  are modelled by the value-level predicates `Frac.lt`, `Frac.le`,
  `Frac.eqv` that compare by cross multiplication, so two fractions
  denoting the same number behave identically, as equal floats do.
* Missing entries (`NaN`) are `Option.none`; pandas `duplicated`/`drop_duplicates`
  treat missing entries as equal to each other, which `Cell.eqv` mirrors.
* `pd.DataFrame` is a list of named, dtyped columns; rows are positional.
* `StandardScaler` divides by the square root of the fitted variance, an
  irrational number in general.  The embedding keeps the fitted variance in
  the statistics record and stores the mean-centred value in the
  transformed frame; none of the verified claims inspects the magnitude of
  a scaled value, only missingness, column structure and the fitted
  statistics themselves, which this representation preserves exactly.
-/

/-- Exact fraction: numerator and denominator.  Every operation below keeps
the denominator positive, and every comparison assumes positive
denominators (cross multiplication). -/
structure Frac where
  n : Int
  d : Int
deriving DecidableEq, Repr

def Frac.ofInt (i : Int) : Frac := ⟨i, 1⟩

def Frac.add (a b : Frac) : Frac := ⟨a.n * b.d + b.n * a.d, a.d * b.d⟩

def Frac.sub (a b : Frac) : Frac := ⟨a.n * b.d - b.n * a.d, a.d * b.d⟩

def Frac.mul (a b : Frac) : Frac := ⟨a.n * b.n, a.d * b.d⟩

/-- Division by a positive natural number (used for means and variances). -/
def Frac.divNat (a : Frac) (k : Nat) : Frac := ⟨a.n, a.d * (k : Int)⟩

/-- Value-level `≤` (valid for positive denominators). -/
def Frac.le (a b : Frac) : Bool := decide (a.n * b.d ≤ b.n * a.d)

/-- Value-level `<` (valid for positive denominators). -/
def Frac.lt (a b : Frac) : Bool := decide (a.n * b.d < b.n * a.d)

/-- Value-level equality (valid for positive denominators). -/
def Frac.eqv (a b : Frac) : Bool := decide (a.n * b.d = b.n * a.d)

/-- Floor of a nonnegative fraction as a natural number. -/
def Frac.floorNat (a : Frac) : Nat := (Int.ediv a.n a.d).toNat

/-! ### Column-name normalisation (`normalize_columns`, preprocessing.py lines 12-20)

Python string primitives are modelled character-wise over ASCII codes:
`str.strip` removes leading/trailing whitespace, `str.lower` maps `A`-`Z`
(codes 65-90) to lowercase, `str.replace(" ", "_")` rewrites spaces
(code 32), and the regex `[^a-z0-9_]` keeps exactly codes 97-122 (`a`-`z`),
48-57 (`0`-`9`) and 95 (`_`). -/

/-- Characters kept by the regex replacement `[^a-z0-9_]` → `""`. -/
def pyKeep (c : Char) : Bool :=
  (97 ≤ c.toNat && c.toNat ≤ 122) || (48 ≤ c.toNat && c.toNat ≤ 57) || c.toNat == 95

/-- Whitespace removed by `str.strip` (ASCII whitespace characters). -/
def pyWhitespace (c : Char) : Bool :=
  c.toNat == 32 || c.toNat == 9 || c.toNat == 10 || c.toNat == 13 ||
    c.toNat == 11 || c.toNat == 12

/-- `str.lower`, character-wise. -/
def pyLower (c : Char) : Char :=
  if 65 ≤ c.toNat && c.toNat ≤ 90 then Char.ofNat (c.toNat + 32) else c

/-- `str.replace(" ", "_")`, character-wise. -/
def pySpaceToU (c : Char) : Char := if c.toNat == 32 then '_' else c

/-- `str.strip`: drop whitespace from both ends. -/
def pyStrip (l : List Char) : List Char :=
  ((l.dropWhile pyWhitespace).reverse.dropWhile pyWhitespace).reverse

/-- The transform applied to the caller's target string (line 84):
strip, lower, space→underscore — note: no character stripping. -/
def normalizeTargetList (l : List Char) : List Char :=
  ((pyStrip l).map pyLower).map pySpaceToU

/-- The transform applied to each dataset column name (lines 13-19):
strip, lower, space→underscore, then remove characters outside
`[a-z0-9_]`. -/
def normalizeNameList (l : List Char) : List Char :=
  (normalizeTargetList l).filter pyKeep

/-- Normalisation of the caller-supplied target string (line 84). -/
def normTarget (s : String) : String := ⟨normalizeTargetList s.data⟩

/-- Normalisation of one dataset column name (lines 13-19). -/
def normalizeName (s : String) : String := ⟨normalizeNameList s.data⟩

/-! ### Dataframes -/

/-- Pandas storage types relevant to the pipeline.  `boolty`/`other` stand
for the dtypes (bool, datetime, ...) recognised by neither branch of
`detect_column_types`. -/
inductive Dtype where
  | int64
  | float64
  | object
  | category
  | boolty
  | other
deriving DecidableEq, Repr

def Dtype.isNumeric : Dtype → Bool
  | .int64 => true
  | .float64 => true
  | _ => false

def Dtype.isCategorical : Dtype → Bool
  | .object => true
  | .category => true
  | _ => false

/-- A cell value: a number, a string, or a boolean. -/
inductive Val where
  | num (q : Frac)
  | str (s : String)
  | bool (b : Bool)
deriving DecidableEq, Repr

/-- Value-level equality of cell values (floats compare by value). -/
def Val.eqv : Val → Val → Bool
  | .num a, .num b => Frac.eqv a b
  | .str a, .str b => a == b
  | .bool a, .bool b => a == b
  | _, _ => false

/-- A cell; `none` models a missing entry (NaN). -/
abbrev Cell := Option Val

/-- Cell equality as used by pandas `duplicated`, which treats missing
entries as equal to each other. -/
def Cell.eqv : Cell → Cell → Bool
  | none, none => true
  | some a, some b => Val.eqv a b
  | _, _ => false

/-- A named, dtyped column of cells. -/
structure Col where
  name : String
  dtype : Dtype
  cells : List Cell
deriving DecidableEq, Repr

/-- A dataframe: an ordered list of columns (rows are positional). -/
abbrev DataFrame := List Col

def dfNames (df : DataFrame) : List String := df.map Col.name

def ncols (df : DataFrame) : Nat := df.length

def nrows (df : DataFrame) : Nat :=
  match df with
  | [] => 0
  | c :: _ => c.cells.length

/-- `normalize_columns` (lines 12-20): rename every column in place. -/
def normalize_columns (df : DataFrame) : DataFrame :=
  df.map fun c => { c with name := normalizeName c.name }

/-! ### Row deduplication (`df.drop_duplicates()`, line 90) -/

/-- The `i`-th row of a dataframe. -/
def rowAt (df : DataFrame) (i : Nat) : List Cell :=
  df.map fun c => c.cells.getD i none

/-- Pandas row equality (missing entries compare equal). -/
def rowEq (r1 r2 : List Cell) : Bool :=
  r1.length == r2.length && (List.zip r1 r2).all fun p => Cell.eqv p.1 p.2

/-- A row is kept by `drop_duplicates` iff no earlier row equals it. -/
def keepRow (df : DataFrame) (i : Nat) : Bool :=
  (List.range i).all fun j => !rowEq (rowAt df j) (rowAt df i)

def keptIdx (df : DataFrame) : List Nat :=
  (List.range (nrows df)).filter (keepRow df)

/-- `df.drop_duplicates()`: keep the first occurrence of every row. -/
def dropDuplicates (df : DataFrame) : DataFrame :=
  df.map fun c => { c with cells := (keptIdx df).map fun i => c.cells.getD i none }

/-- `df.duplicated().sum()`: number of rows flagged as duplicates
(every occurrence after the first). -/
def dupCount (df : DataFrame) : Nat := nrows df - (keptIdx df).length

/-! ### Type detection (`detect_column_types`, lines 23-26) -/

/-- `select_dtypes(include=["int64","float64"])` and
`select_dtypes(include=["object","category"])` as name lists. -/
def detect_column_types (df : DataFrame) : List String × List String :=
  ((df.filter fun c => c.dtype.isNumeric).map Col.name,
   (df.filter fun c => c.dtype.isCategorical).map Col.name)

/-! ### IQR outlier counting and clipping (lines 29-47) -/

/-- The numeric values of a column, skipping missing entries (pandas
`quantile` ignores NaN). -/
def numCells (c : Col) : List Frac :=
  c.cells.filterMap fun cell =>
    match cell with
    | some (Val.num q) => some q
    | _ => none

def insertFrac (x : Frac) : List Frac → List Frac
  | [] => [x]
  | y :: ys => if Frac.le x y then x :: y :: ys else y :: insertFrac x ys

/-- Ascending insertion sort by value. -/
def sortFrac (l : List Frac) : List Frac := l.foldr insertFrac []

/-- Pandas `Series.quantile(qn/qd)` with the default linear interpolation:
position `h = q·(n-1)`, `i = ⌊h⌋`, result `xs[i] + (h-i)·(xs[i+1]-xs[i])`.
`none` when the column has no numeric values (pandas returns NaN). -/
def quantileAt (xs : List Frac) (qn qd : Int) : Option Frac :=
  match xs with
  | [] => none
  | _ =>
    let m : Int := (xs.length : Int) - 1
    let h : Frac := ⟨qn * m, qd⟩
    let i : Nat := h.floorNat
    let a := xs.getD i (Frac.ofInt 0)
    let b := xs.getD (i + 1) a
    some (Frac.add a (Frac.mul (Frac.sub h (Frac.ofInt i)) (Frac.sub b a)))

/-- The IQR fence `[Q1 - 1.5·IQR, Q3 + 1.5·IQR]` of a column
(lines 32-34 / 41-45), `none` when the column has no numeric values. -/
def colFence (c : Col) : Option (Frac × Frac) :=
  let xs := sortFrac (numCells c)
  match quantileAt xs 1 4, quantileAt xs 3 4 with
  | some q1, some q3 =>
    let iqr := Frac.sub q3 q1
    some (Frac.sub q1 (Frac.mul ⟨3, 2⟩ iqr), Frac.add q3 (Frac.mul ⟨3, 2⟩ iqr))
  | _, _ => none

/-- Whether a value lies outside the fence: `(x < lower) | (x > upper)`
(line 35).  Comparisons with NaN are false, so missing cells never count. -/
def outlierTest (L U x : Frac) : Bool := Frac.lt x L || Frac.lt U x

/-- Outliers of a single column. -/
def countOutCol (c : Option Col) : Nat :=
  match c with
  | none => 0
  | some c =>
    match colFence c with
    | none => 0
    | some (L, U) => (numCells c).countP (outlierTest L U)

/-- First column with the given name (`df[col]`). -/
def colByName (df : DataFrame) (n : String) : Option Col :=
  df.find? fun c => c.name == n

/-- `count_outliers` (lines 29-36). -/
def count_outliers (df : DataFrame) (num_cols : List String) : Nat :=
  num_cols.foldl (fun acc n => acc + countOutCol (colByName df n)) 0

/-- `np.clip(x, lower, upper)` on a float: unchanged when inside the fence,
otherwise moved to the violated bound.  NaN stays NaN (handled one level
up), and equal values are identical floats, so a value equal to a bound is
returned unchanged. -/
def clampF (L U x : Frac) : Frac :=
  if Frac.lt x L then L else if Frac.lt U x then U else x

/-- Clip one column to its own fence (lines 41-46). -/
def clipCol (c : Col) : Col :=
  match colFence c with
  | none => c
  | some (L, U) =>
    { c with
      cells := c.cells.map fun cell =>
        match cell with
        | some (Val.num x) => some (Val.num (clampF L U x))
        | other => other }

/-- `handle_outliers` (lines 39-47): clip each listed column in turn. -/
def handle_outliers (df : DataFrame) (num_cols : List String) : DataFrame :=
  num_cols.foldl (fun acc n => acc.map fun c => if c.name == n then clipCol c else c) df

/-! ### Quality scorer (`compute_quality_score`, lines 50-73) -/

/-- `df.isnull().sum().sum()`: total number of missing entries. -/
def missingCount (df : DataFrame) : Nat :=
  (df.map fun c => c.cells.countP fun cell => cell.isNone).sum

/-- `compute_quality_score(raw_df, cleaned_df, out_before, out_after)`
(lines 50-73): fixed rubric, summed and capped at 100; each passing check
appends its message, the 10-point leakage check unconditionally. -/
def compute_quality_score (raw cleaned : DataFrame) (out_before out_after : Nat) :
    Nat × List String :=
  (min ((if missingCount cleaned = 0 then 30 else 0) +
        (if out_after < out_before then 25 else 0) +
        (if dupCount cleaned < dupCount raw then 15 else 0) +
        (if ncols raw ≤ ncols cleaned then 20 else 0) + 10) 100,
   (if missingCount cleaned = 0 then ["✔ Missing values handled"] else []) ++
   (if out_after < out_before then ["✔ Outliers reduced"] else []) ++
   (if dupCount cleaned < dupCount raw then ["✔ Duplicates removed"] else []) ++
   (if ncols raw ≤ ncols cleaned then ["✔ Features encoded & scaled"] else []) ++
   ["✔ Leakage-safe pipeline"])

/-! ### Fitted transform statistics (`num_pipeline`/`cat_pipeline`/`ColumnTransformer`,
lines 126-142, fitted at line 145) -/

/-- Statistics fitted for one numeric column: `SimpleImputer(strategy="median")`
then `StandardScaler` (the scaler's mean and biased variance are computed on
the imputed training column). -/
structure NumStats where
  median : Frac
  mean : Frac
  variance : Frac
deriving DecidableEq, Repr

/-- Ordering of cell values used by numpy sorting on a homogeneous column
(numbers by value, strings lexicographically); the cross-kind cases are
unreachable on real columns. -/
def valLE : Val → Val → Bool
  | .num a, .num b => Frac.le a b
  | .str a, .str b => decide (a ≤ b)
  | .bool a, .bool b => !a || b
  | .num _, _ => true
  | _, .num _ => false
  | .str _, .bool _ => true
  | .bool _, .str _ => false

def insertVal (x : Val) : List Val → List Val
  | [] => [x]
  | y :: ys => if valLE x y then x :: y :: ys else y :: insertVal x ys

def sortVals (l : List Val) : List Val := l.foldr insertVal []

/-- Collapse value-equal adjacent entries of a sorted list. -/
def dedupAdj : List Val → List Val
  | [] => []
  | x :: rest =>
    match rest with
    | [] => [x]
    | y :: _ => if Val.eqv x y then dedupAdj rest else x :: dedupAdj rest

/-- `np.unique`: sorted distinct values. -/
def uniqueSorted (l : List Val) : List Val := dedupAdj (sortVals l)

/-- `SimpleImputer(strategy="most_frequent")`: the most frequent non-missing
value, smallest first on ties; `none` when the column is entirely missing. -/
def modeOf (vs : List Val) : Option Val :=
  (uniqueSorted vs).foldl
    (fun best v =>
      match best with
      | none => some v
      | some b => if vs.countP (Val.eqv b) < vs.countP (Val.eqv v) then some v else some b)
    none

/-- Statistics fitted for one categorical column:
`SimpleImputer(strategy="most_frequent")` then `OneHotEncoder`, whose
category vocabulary is the sorted distinct values of the imputed training
column. -/
structure CatStats where
  mode : Val
  vocab : List Val
deriving DecidableEq, Repr

/-- Numeric value of a cell after median imputation. -/
def imputeNum (m : Frac) (cell : Cell) : Frac :=
  match cell with
  | some (Val.num x) => x
  | _ => m

/-- Value of a cell after most-frequent imputation. -/
def imputeCat (mo : Val) (cell : Cell) : Val :=
  match cell with
  | some v => v
  | none => mo

/-- Fit the numeric pipeline on one training column.  `none` when the
column has no numeric values: `SimpleImputer` drops an all-missing
feature. -/
def fitNumCol (c : Col) : Option NumStats :=
  match quantileAt (sortFrac (numCells c)) 1 2 with
  | none => none
  | some m =>
    let vals := c.cells.map (imputeNum m)
    let nr := vals.length
    let mean := Frac.divNat (vals.foldl Frac.add (Frac.ofInt 0)) nr
    let variance :=
      Frac.divNat
        ((vals.map fun x => Frac.mul (Frac.sub x mean) (Frac.sub x mean)).foldl
          Frac.add (Frac.ofInt 0)) nr
    some ⟨m, mean, variance⟩

/-- Fit the categorical pipeline on one training column.  `none` when the
column has no values at all: `SimpleImputer` drops an all-missing
feature. -/
def fitCatCol (c : Col) : Option CatStats :=
  match modeOf (c.cells.filterMap id) with
  | none => none
  | some mo => some ⟨mo, uniqueSorted (c.cells.map (imputeCat mo))⟩

/-- The full fitted `ColumnTransformer` state: per-column statistics, fitted
once on the training partition (line 145) and serialised to
`autoprepml_pipeline.pkl` (line 164). -/
structure FitStats where
  nums : List (String × NumStats)
  cats : List (String × CatStats)
deriving DecidableEq, Repr

def fitStats (Xtr : DataFrame) (num_cols cat_cols : List String) : FitStats :=
  ⟨num_cols.filterMap fun n =>
      (colByName Xtr n).bind fun c => (fitNumCol c).map fun s => (n, s),
   cat_cols.filterMap fun n =>
      (colByName Xtr n).bind fun c => (fitCatCol c).map fun s => (n, s)⟩

/-- Printable form of a category value, used only to build the one-hot
output column names. -/
def showVal : Val → String
  | .str s => s
  | .num q => toString q.n ++ "/" ++ toString q.d
  | .bool b => toString b

/-- Apply the fitted transform to a frame (`preprocessor.transform`,
line 148; also the output half of `fit_transform`, line 145).  Output
columns carry the feature names of lines 153-157 with the `num__`/`cat__`
prefixes already stripped; numeric cells hold the imputed, mean-centred
value (see the module comment on `StandardScaler`), one-hot cells hold the
0/1 indicator, with unknown categories encoded as all zeros
(`handle_unknown="ignore"`). -/
def sourceCells (X : DataFrame) (n : String) : List Cell :=
  match colByName X n with
  | none => []
  | some c => c.cells

def transformNumCol (X : DataFrame) (p : String × NumStats) : Col :=
  { name := p.1, dtype := Dtype.float64,
    cells := (sourceCells X p.1).map fun cell =>
      some (Val.num (Frac.sub (imputeNum p.2.median cell) p.2.mean)) }

def transformCatCol (X : DataFrame) (p : String × CatStats) : List Col :=
  p.2.vocab.map fun v =>
    { name := p.1 ++ "_" ++ showVal v, dtype := Dtype.float64,
      cells := (sourceCells X p.1).map fun cell =>
        some (Val.num (Frac.ofInt
          (if Val.eqv (imputeCat p.2.mode cell) v then 1 else 0))) }

def transformDF (st : FitStats) (X : DataFrame) : DataFrame :=
  st.nums.map (transformNumCol X) ++ (st.cats.map (transformCatCol X)).flatten

/-! ### Mode selection and the main pipeline (`autoprepml`, lines 78-188) -/

/-- The synthetic-ID names of line 87. -/
def idNames : List String := ["id", "index", "row_id"]

/-- Line 87: unsupervised iff the normalised target is a synthetic-ID name
or is not among the (normalised) column names. -/
def modeIsUnsup (df : DataFrame) (target : String) : Bool :=
  idNames.contains (normTarget target) ||
    !(dfNames (normalize_columns df)).contains (normTarget target)

/-- The dataframe after normalisation and deduplication (lines 83, 90). -/
def pipelineDf2 (df : DataFrame) : DataFrame := dropDuplicates (normalize_columns df)

/-- The feature frame before outlier handling: the whole frame in
unsupervised mode (line 94), the frame without the target column in
supervised mode (line 99). -/
def pipelineX0 (df : DataFrame) (target : String) : DataFrame :=
  if modeIsUnsup df target then pipelineDf2 df
  else (pipelineDf2 df).filter fun c => c.name != normTarget target

/-- The label column `y = df[target_column]` (line 100).  The fallback
value is unreachable: in supervised mode the target is a column. -/
def pipelineY (df : DataFrame) (target : String) : Col :=
  (colByName (pipelineDf2 df) (normTarget target)).getD
    { name := normTarget target, dtype := Dtype.object, cells := [] }

/-- Line 101: `"regression" if y.dtype != "object" else "classification"`,
`"unsupervised"` in unsupervised mode (line 96). -/
def pipelineProblemType (df : DataFrame) (target : String) : String :=
  if modeIsUnsup df target then "unsupervised"
  else if (pipelineY df target).dtype ≠ Dtype.object then "regression"
  else "classification"

def pipelineNumCols (df : DataFrame) (target : String) : List String :=
  (detect_column_types (pipelineX0 df target)).1

def pipelineCatCols (df : DataFrame) (target : String) : List String :=
  (detect_column_types (pipelineX0 df target)).2

/-- The clipped feature frame `X` after line 108 — the frame that is later
passed to `compute_quality_score` as `cleaned_df` (line 169). -/
def pipelineX (df : DataFrame) (target : String) : DataFrame :=
  handle_outliers (pipelineX0 df target) (pipelineNumCols df target)

/-- `count_outliers` before clipping (line 107). -/
def outliersBefore (df : DataFrame) (target : String) : Nat :=
  count_outliers (pipelineX0 df target) (pipelineNumCols df target)

/-- `count_outliers` after clipping (line 109). -/
def outliersAfter (df : DataFrame) (target : String) : Nat :=
  count_outliers (pipelineX df target) (pipelineNumCols df target)

/-- The outcome of one `train_test_split` call. -/
structure SplitOut where
  Xtr : DataFrame
  Xte : DataFrame
  ytr : Col
  yte : Col

/-- `sklearn.model_selection.train_test_split`'s row assignment
(`test_size=0.2, random_state=42`) is pseudo-random library behaviour;
the pipeline is parametric in it. -/
abbrev SplitFn := DataFrame → Col → SplitOut

/-- `train_test_split(..., stratify=y)` raises this `ValueError` when the
least populated class has fewer than 2 members. -/
def stratMsg : String :=
  "The least populated class in y has only 1 member, which is too few. The minimum number of groups for any class cannot be less than 2."

/-- Some label class has fewer than 2 members (class counts use float/NaN
value equality, as numpy does). -/
def hasSingletonClass (y : Col) : Bool :=
  y.cells.any fun v => y.cells.countP (Cell.eqv v) < 2

/-- The result dictionary of `autoprepml` (lines 175-188), together with
the fitted transform persisted at line 164. -/
structure PrepResult where
  mode : String
  problem_type : String
  Xtrain : DataFrame
  Xtest : Option DataFrame
  ytrain : Option Col
  ytest : Option Col
  quality_score : Nat
  quality_checks : List String
  outliers_before : Nat
  outliers_after : Nat
  raw_features : Nat
  processed_features : Nat
  persisted : FitStats
deriving DecidableEq, Repr

/-- `autoprepml(df, target_column)` (lines 78-188), parametric in the
split's row assignment.  The stratified split raises (is `Except.error`)
exactly when stratification meets a class with fewer than 2 members;
otherwise the pipeline fits the transform once on the training partition
and applies it to the test partition. -/
def autoprepmlRun (split : SplitFn) (df : DataFrame) (target : String) :
    Except String PrepResult :=
  let unsup := modeIsUnsup df target
  let X1 := pipelineX df target
  let y := pipelineY df target
  let pt := pipelineProblemType df target
  if (!unsup && (pt == "classification")) && hasSingletonClass y then
    Except.error stratMsg
  else
    let so := split X1 y
    let Xtr := if unsup then X1 else so.Xtr
    let stats := fitStats Xtr (pipelineNumCols df target) (pipelineCatCols df target)
    let XtrP := transformDF stats Xtr
    let qc := compute_quality_score df X1 (outliersBefore df target) (outliersAfter df target)
    Except.ok
      { mode := if unsup then "unsupervised" else "supervised"
        problem_type := pt
        Xtrain := XtrP
        Xtest := if unsup then none else some (transformDF stats so.Xte)
        ytrain := if unsup then none else some so.ytr
        ytest := if unsup then none else some so.yte
        quality_score := qc.1
        quality_checks := qc.2
        outliers_before := outliersBefore df target
        outliers_after := outliersAfter df target
        raw_features := ncols df
        processed_features := ncols XtrP
        persisted := stats }

/-- The full call: its value, plus the final state of the caller's
dataframe object.  Line 80 copies `df` before anything mutates it; the
only statement that writes through the caller's reference is the column
renaming of line 83 (`df.columns = ...` inside `normalize_columns`).
Every later step rebinds `df`/`X` to fresh frames (`drop_duplicates`,
`drop`, and the copy produced by the `X[num_cols]` selection), so the
caller's object keeps its rows and cell values. -/
def autoprepml (split : SplitFn) (df : DataFrame) (target : String) :
    Except String PrepResult × DataFrame :=
  (autoprepmlRun split df target, normalize_columns df)

/-! ### Observables of a run -/

def runStats (e : Except String PrepResult) : Option FitStats :=
  e.toOption.map PrepResult.persisted

def runXtest (e : Except String PrepResult) : Option (Option DataFrame) :=
  e.toOption.map PrepResult.Xtest

def runChecks (e : Except String PrepResult) : List String :=
  (e.toOption.map PrepResult.quality_checks).getD []

def runXtrain (e : Except String PrepResult) : DataFrame :=
  (e.toOption.map PrepResult.Xtrain).getD []

def runProblemType (e : Except String PrepResult) : Option String :=
  e.toOption.map PrepResult.problem_type

def runProcessedFeatures (e : Except String PrepResult) : Option Nat :=
  e.toOption.map PrepResult.processed_features

def runRawFeatures (e : Except String PrepResult) : Option Nat :=
  e.toOption.map PrepResult.raw_features

/-- A concrete instantiation of the split's row assignment, usable where a
claim does not depend on which rows the library sends to either side. -/
def trivSplit : SplitFn := fun X y =>
  ⟨X, [], y, { name := y.name, dtype := y.dtype, cells := [] }⟩

/-! ### Auxiliary definitions used by the verification -/

/-- Point value of each quality-check message of `compute_quality_score`. -/
def checkPoints (s : String) : Nat :=
  if s = "✔ Missing values handled" then 30
  else if s = "✔ Outliers reduced" then 25
  else if s = "✔ Duplicates removed" then 15
  else if s = "✔ Features encoded & scaled" then 20
  else if s = "✔ Leakage-safe pipeline" then 10
  else 0

/-- The column's pre-clip IQR fence already bounds all of its values
(equivalently, the per-value outlier test of line 35 fails everywhere);
vacuously true when the column has no numeric values, where clipping
leaves the column unchanged as well. -/
def colBoundedB (c : Col) : Bool :=
  match colFence c with
  | none => true
  | some (L, U) => (numCells c).all fun x => !outlierTest L U x

/-- Placeholder result used only to extract the payload of a run that is
known to succeed. -/
def dummyResult : PrepResult :=
  { mode := "", problem_type := "", Xtrain := [], Xtest := none, ytrain := none,
    ytest := none, quality_score := 0, quality_checks := [], outliers_before := 0,
    outliers_after := 0, raw_features := 0, processed_features := 0,
    persisted := ⟨[], []⟩ }

/-- Shorthand for an integer-valued cell. -/
def fi (i : Int) : Cell := some (Val.num (Frac.ofInt i))

/-- Shorthand for a string-valued cell. -/
def fs (s : String) : Cell := some (Val.str s)

/-! ### Concrete frames used by counterexamples and witnesses -/

/-- One numeric column whose recomputed post-clip fences are tighter than
the pre-clip ones: `[-320, -320, 0, 0, 0, 0, 0, 96]` has 2 outliers before
clipping and 3 after. -/
def exC5 : DataFrame :=
  [⟨"x", Dtype.int64, [fi (-320), fi (-320), fi 0, fi 0, fi 0, fi 0, fi 0, fi 96]⟩]

/-- One float column with a missing entry; the imputed output has no
missing entries but the 30-point check fails. -/
def exC1 : DataFrame := [⟨"a", Dtype.float64, [fi 1, none, fi 4]⟩]

/-- An int column plus a bool column: the bool column is dropped by the
transform, so the processed frame has fewer columns than the raw one while
the 20-point check still passes. -/
def exC2 : DataFrame :=
  [⟨"a", Dtype.int64, [fi 1, fi 2, fi 3]⟩,
   ⟨"b", Dtype.boolty, [some (Val.bool true), some (Val.bool false), some (Val.bool true)]⟩]

/-- A numeric feature and a category-dtype target taking string values. -/
def exC4 : DataFrame :=
  [⟨"x", Dtype.int64, [fi 1, fi 2, fi 3, fi 4, fi 5]⟩,
   ⟨"t", Dtype.category, [fs "a", fs "b", fs "a", fs "b", fs "a"]⟩]

/-- A numeric feature and an object target with a singleton class. -/
def exC6 : DataFrame :=
  [⟨"x", Dtype.int64, [fi 1, fi 2, fi 3]⟩,
   ⟨"t", Dtype.object, [fs "a", fs "a", fs "b"]⟩]

/-- A supervised regression frame: numeric feature and numeric target. -/
def exReg : DataFrame :=
  [⟨"x", Dtype.int64, [fi 1, fi 2, fi 3, fi 4, fi 5]⟩,
   ⟨"t", Dtype.int64, [fi 10, fi 20, fi 30, fi 40, fi 50]⟩]

/-- A second split assignment that differs from `trivSplit` only in the
content of the test partition. -/
def otherSplit : SplitFn := fun X y =>
  ⟨X, [⟨"x", Dtype.float64, [fi 999]⟩], y,
   { name := y.name, dtype := y.dtype, cells := [] }⟩

/-- A clean single-column frame with no missing values and no outliers. -/
def exClean : DataFrame := [⟨"a", Dtype.float64, [fi 1, fi 2, fi 4]⟩]

/-- A small frame with an int, an object and a bool column. -/
def exTypes : DataFrame :=
  [⟨"a", Dtype.int64, [fi 1]⟩, ⟨"b", Dtype.object, [fs "u"]⟩,
   ⟨"c", Dtype.boolty, [some (Val.bool true)]⟩]
/-- Two columns sharing one name with different dtypes (possible in pandas,
e.g. when normalisation makes two names collide). -/
def exDup : DataFrame := [⟨"a", Dtype.int64, [fi 1]⟩, ⟨"a", Dtype.object, [fs "u"]⟩]

/-! ### Idempotence infrastructure for normalisation -/

theorem pyKeep_not_ws {c : Char} (h : pyKeep c = true) : pyWhitespace c = false := by
  simp only [pyKeep, Bool.or_eq_true, Bool.and_eq_true, decide_eq_true_eq,
    beq_iff_eq] at h
  simp only [pyWhitespace, Bool.or_eq_false_iff, beq_eq_false_iff_ne, ne_eq]
  omega

theorem pyKeep_lower_fixed {c : Char} (h : pyKeep c = true) : pyLower c = c := by
  simp only [pyKeep, Bool.or_eq_true, Bool.and_eq_true, decide_eq_true_eq,
    beq_iff_eq] at h
  rw [pyLower, if_neg]
  simp only [Bool.and_eq_true, decide_eq_true_eq, not_and]
  omega

theorem pyKeep_space_fixed {c : Char} (h : pyKeep c = true) : pySpaceToU c = c := by
  simp only [pyKeep, Bool.or_eq_true, Bool.and_eq_true, decide_eq_true_eq,
    beq_iff_eq] at h
  rw [pySpaceToU, if_neg]
  simp only [beq_iff_eq]
  omega

theorem dropWhile_of_none {p : Char → Bool} {l : List Char}
    (h : ∀ c ∈ l, p c = false) : l.dropWhile p = l := by
  cases l with
  | nil => rfl
  | cons a t => simp [List.dropWhile, h a (by simp)]

theorem pyStrip_of_keep {l : List Char} (h : ∀ c ∈ l, pyKeep c = true) :
    pyStrip l = l := by
  have hw : ∀ c ∈ l, pyWhitespace c = false := fun c hc => pyKeep_not_ws (h c hc)
  rw [pyStrip, dropWhile_of_none hw, dropWhile_of_none (fun c hc => hw c (List.mem_reverse.mp hc)),
    List.reverse_reverse]

theorem mem_normalizeNameList {c : Char} {l : List Char}
    (h : c ∈ normalizeNameList l) : pyKeep c = true :=
  (List.mem_filter.mp h).2

theorem normalizeNameList_idem (l : List Char) :
    normalizeNameList (normalizeNameList l) = normalizeNameList l := by
  have hk : ∀ c ∈ normalizeNameList l, pyKeep c = true :=
    fun c hc => mem_normalizeNameList hc
  rw [normalizeNameList, normalizeTargetList, pyStrip_of_keep hk]
  rw [show (normalizeNameList l).map pyLower = normalizeNameList l from
    (List.map_congr_left fun c hc => pyKeep_lower_fixed (hk c hc)).trans
      (List.map_id _)]
  rw [show (normalizeNameList l).map pySpaceToU = normalizeNameList l from
    (List.map_congr_left fun c hc => pyKeep_space_fixed (hk c hc)).trans
      (List.map_id _)]
  exact List.filter_eq_self.mpr hk

theorem normalizeName_idem (s : String) :
    normalizeName (normalizeName s) = normalizeName s := by
  simp [normalizeName, normalizeNameList_idem]


/-! ### Quality-scorer check-membership lemmas -/

theorem mem_qc_missing (raw cleaned : DataFrame) (ob oa : Nat) :
    "✔ Missing values handled" ∈ (compute_quality_score raw cleaned ob oa).2 ↔
      missingCount cleaned = 0 := by
  unfold compute_quality_score
  split_ifs <;> simp_all

theorem mem_qc_outliers (raw cleaned : DataFrame) (ob oa : Nat) :
    "✔ Outliers reduced" ∈ (compute_quality_score raw cleaned ob oa).2 ↔ oa < ob := by
  unfold compute_quality_score
  split_ifs <;> simp_all

theorem mem_qc_dups (raw cleaned : DataFrame) (ob oa : Nat) :
    "✔ Duplicates removed" ∈ (compute_quality_score raw cleaned ob oa).2 ↔
      dupCount cleaned < dupCount raw := by
  unfold compute_quality_score
  split_ifs <;> simp_all

theorem mem_qc_encoded (raw cleaned : DataFrame) (ob oa : Nat) :
    "✔ Features encoded & scaled" ∈ (compute_quality_score raw cleaned ob oa).2 ↔
      ncols raw ≤ ncols cleaned := by
  unfold compute_quality_score
  split_ifs <;> simp_all

theorem mem_qc_leakage (raw cleaned : DataFrame) (ob oa : Nat) :
    "✔ Leakage-safe pipeline" ∈ (compute_quality_score raw cleaned ob oa).2 := by
  unfold compute_quality_score
  split_ifs <;> simp_all

/-! ### Claim theorems -/

/-- C9: column normalization is idempotent — applying the trim / lowercase
/ space-to-underscore / strip-non-`[a-z0-9_]` transform twice yields the
same column names as applying it once. -/
theorem C9_normalize_columns_idempotent (df : DataFrame) :
    normalize_columns (normalize_columns df) = normalize_columns df := by
  unfold normalize_columns
  rw [List.map_map]
  exact List.map_congr_left fun c _ => by
    simp [Function.comp, normalizeName_idem]

/-- C10: `autoprepml` renames the caller's dataframe columns in place to
their normalized forms, but never changes the caller's dtypes, rows or
cell values — deduplication, clipping and the fitted transforms all act
on copies. -/
theorem C10_caller_frame_effect (split : SplitFn) (df : DataFrame) (target : String) :
    dfNames (autoprepml split df target).2 = (dfNames df).map normalizeName ∧
    (autoprepml split df target).2.map Col.cells = df.map Col.cells ∧
    (autoprepml split df target).2.map Col.dtype = df.map Col.dtype := by
  refine ⟨?_, ?_, ?_⟩ <;>
    simp [autoprepml, normalize_columns, dfNames, List.map_map, Function.comp]

/-- C7: the quality score is `min` of the summed points of exactly the
passed checks and 100, hence an integer in `[0, 100]`; each of the four
conditional checks appears in the output iff its condition holds, and the
10-point leakage check is awarded unconditionally. -/
theorem C7_quality_score_rubric (raw cleaned : DataFrame) (ob oa : Nat) :
    (compute_quality_score raw cleaned ob oa).1 =
      min (((compute_quality_score raw cleaned ob oa).2.map checkPoints).sum) 100 ∧
    (compute_quality_score raw cleaned ob oa).1 ≤ 100 ∧
    "✔ Leakage-safe pipeline" ∈ (compute_quality_score raw cleaned ob oa).2 ∧
    ("✔ Missing values handled" ∈ (compute_quality_score raw cleaned ob oa).2 ↔
      missingCount cleaned = 0) ∧
    ("✔ Outliers reduced" ∈ (compute_quality_score raw cleaned ob oa).2 ↔ oa < ob) ∧
    ("✔ Duplicates removed" ∈ (compute_quality_score raw cleaned ob oa).2 ↔
      dupCount cleaned < dupCount raw) ∧
    ("✔ Features encoded & scaled" ∈ (compute_quality_score raw cleaned ob oa).2 ↔
      ncols raw ≤ ncols cleaned) := by
  refine ⟨?_, ?_, mem_qc_leakage raw cleaned ob oa, mem_qc_missing raw cleaned ob oa,
    mem_qc_outliers raw cleaned ob oa, mem_qc_dups raw cleaned ob oa,
    mem_qc_encoded raw cleaned ob oa⟩ <;>
  · unfold compute_quality_score
    split_ifs <;> simp [checkPoints]

/-- Membership in the numeric half of `detect_column_types`. -/
theorem mem_detect_num {df : DataFrame} {n : String} :
    n ∈ (detect_column_types df).1 ↔
      ∃ c ∈ df, c.dtype.isNumeric = true ∧ c.name = n := by
  simp only [detect_column_types, List.mem_map, List.mem_filter]
  constructor
  · rintro ⟨c, ⟨hc, hd⟩, hn⟩
    exact ⟨c, hc, hd, hn⟩
  · rintro ⟨c, hc, hd, hn⟩
    exact ⟨c, ⟨hc, hd⟩, hn⟩

/-- Membership in the categorical half of `detect_column_types`. -/
theorem mem_detect_cat {df : DataFrame} {n : String} :
    n ∈ (detect_column_types df).2 ↔
      ∃ c ∈ df, c.dtype.isCategorical = true ∧ c.name = n := by
  simp only [detect_column_types, List.mem_map, List.mem_filter]
  constructor
  · rintro ⟨c, ⟨hc, hd⟩, hn⟩
    exact ⟨c, hc, hd, hn⟩
  · rintro ⟨c, hc, hd, hn⟩
    exact ⟨c, ⟨hc, hd⟩, hn⟩

/-- C8 (amended): on a dataframe with distinct column names,
`detect_column_types` returns two disjoint name sets; every column of
numeric dtype lands exactly in the first, every column of
object/category dtype exactly in the second, and a column of any other
dtype (bool, datetime, ...) lands in neither set. -/
theorem C8_detect_column_types_partition (df : DataFrame)
    (h : (dfNames df).Nodup) :
    (∀ n, ¬(n ∈ (detect_column_types df).1 ∧ n ∈ (detect_column_types df).2)) ∧
    (∀ c ∈ df,
      (c.dtype.isNumeric = true →
        c.name ∈ (detect_column_types df).1 ∧ c.name ∉ (detect_column_types df).2) ∧
      (c.dtype.isCategorical = true →
        c.name ∈ (detect_column_types df).2 ∧ c.name ∉ (detect_column_types df).1) ∧
      (c.dtype.isNumeric = false → c.dtype.isCategorical = false →
        c.name ∉ (detect_column_types df).1 ∧ c.name ∉ (detect_column_types df).2)) := by
  have hinj : ∀ c1 ∈ df, ∀ c2 ∈ df, c1.name = c2.name → c1 = c2 :=
    List.inj_on_of_nodup_map h
  constructor
  · rintro n ⟨h1, h2⟩
    obtain ⟨c1, hc1, hd1, hn1⟩ := mem_detect_num.mp h1
    obtain ⟨c2, hc2, hd2, hn2⟩ := mem_detect_cat.mp h2
    have : c1 = c2 := hinj c1 hc1 c2 hc2 (hn1.trans hn2.symm)
    subst this
    cases hd : c1.dtype <;> simp [hd, Dtype.isNumeric, Dtype.isCategorical] at hd1 hd2
  · intro c hc
    refine ⟨fun hnum => ⟨mem_detect_num.mpr ⟨c, hc, hnum, rfl⟩, ?_⟩,
            fun hcat => ⟨mem_detect_cat.mpr ⟨c, hc, hcat, rfl⟩, ?_⟩,
            fun hnum hcat => ⟨?_, ?_⟩⟩
    · intro hmem
      obtain ⟨c2, hc2, hd2, hn2⟩ := mem_detect_cat.mp hmem
      have : c2 = c := hinj c2 hc2 c hc hn2
      subst this
      cases hd : c2.dtype <;>
        simp [hd, Dtype.isNumeric, Dtype.isCategorical] at hnum hd2
    · intro hmem
      obtain ⟨c2, hc2, hd2, hn2⟩ := mem_detect_num.mp hmem
      have : c2 = c := hinj c2 hc2 c hc hn2
      subst this
      cases hd : c2.dtype <;>
        simp [hd, Dtype.isNumeric, Dtype.isCategorical] at hcat hd2
    · intro hmem
      obtain ⟨c2, hc2, hd2, hn2⟩ := mem_detect_num.mp hmem
      have : c2 = c := hinj c2 hc2 c hc hn2
      subst this
      rw [hnum] at hd2
      exact Bool.false_ne_true hd2
    · intro hmem
      obtain ⟨c2, hc2, hd2, hn2⟩ := mem_detect_cat.mp hmem
      have : c2 = c := hinj c2 hc2 c hc hn2
      subst this
      rw [hcat] at hd2
      exact Bool.false_ne_true hd2

/-- C8 counterexample: in `exTypes` the bool column `"c"` is a feature
column, yet it appears in neither of the two detected sets — so not every
feature column appears in exactly one of the two sets, as the claim
states; and on `exDup`, whose two columns share a name, the two sets are
not even disjoint. -/
theorem C8_counterexample :
    ("c" ∈ dfNames exTypes ∧
      "c" ∉ (detect_column_types exTypes).1 ∧
      "c" ∉ (detect_column_types exTypes).2) ∧
    ("a" ∈ (detect_column_types exDup).1 ∧ "a" ∈ (detect_column_types exDup).2) := by
  decide

/-- C8 witness: the amended partition statement applied to the concrete
frame `exTypes`. -/
theorem C8_witness :
    ("a" ∈ (detect_column_types exTypes).1 ∧ "a" ∉ (detect_column_types exTypes).2) ∧
    ("b" ∈ (detect_column_types exTypes).2 ∧ "b" ∉ (detect_column_types exTypes).1) := by
  have H := C8_detect_column_types_partition exTypes (by decide)
  exact ⟨(H.2 ⟨"a", Dtype.int64, [fi 1]⟩ (by decide)).1 (by decide),
         ((H.2 ⟨"b", Dtype.object, [fs "u"]⟩ (by decide)).2.1 (by decide))⟩

/-- Clipping a column whose fence already bounds all values is the
identity. -/
theorem clipCol_id {c : Col} (hb : colBoundedB c = true) : clipCol c = c := by
  unfold colBoundedB at hb
  unfold clipCol
  cases hf : colFence c with
  | none => rfl
  | some LU =>
    obtain ⟨L, U⟩ := LU
    rw [hf] at hb
    simp only [List.all_eq_true] at hb
    show Col.mk c.name c.dtype (c.cells.map fun cell =>
        match cell with
        | some (Val.num x) => some (Val.num (clampF L U x))
        | other => other) = c
    have hcells : (c.cells.map fun cell =>
        match cell with
        | some (Val.num x) => some (Val.num (clampF L U x))
        | other => other) = c.cells := by
      refine (List.map_congr_left ?_).trans (List.map_id _)
      intro cell hcell
      match cell with
      | none => rfl
      | some (Val.str s) => rfl
      | some (Val.bool b) => rfl
      | some (Val.num x) =>
        have hx : x ∈ numCells c := by
          unfold numCells
          exact List.mem_filterMap.mpr ⟨some (Val.num x), hcell, rfl⟩
        have hout := hb x hx
        simp only [outlierTest, Bool.not_or, Bool.and_eq_true, Bool.not_eq_true'] at hout
        simp [clampF, hout.1, hout.2]
    rw [hcells]

/-- Clipping several bounded columns is the identity frame-wise. -/
theorem handle_outliers_id {df : DataFrame} {cols : List String}
    (h : ∀ n ∈ cols, ∀ c ∈ df, c.name = n → colBoundedB c = true) :
    handle_outliers df cols = df := by
  induction cols with
  | nil => rfl
  | cons n rest ih =>
    have hstep : (df.map fun c => if c.name == n then clipCol c else c) = df := by
      refine (List.map_congr_left ?_).trans (List.map_id _)
      intro c hc
      by_cases hn : c.name == n
      · rw [if_pos hn]
        exact clipCol_id (h n (by simp) c hc (by simpa using hn))
      · rw [if_neg hn]
        rfl
    unfold handle_outliers
    rw [List.foldl_cons, hstep]
    exact ih fun m hm c hc he => h m (List.mem_cons_of_mem n hm) c hc he

/-- A bounded column contributes no outliers. -/
theorem countOutCol_zero {c : Col} (hb : colBoundedB c = true) :
    countOutCol (some c) = 0 := by
  unfold colBoundedB at hb
  show (match colFence c with
    | none => 0
    | some (L, U) => (numCells c).countP (outlierTest L U)) = 0
  cases hf : colFence c with
  | none => rfl
  | some LU =>
    obtain ⟨L, U⟩ := LU
    rw [hf] at hb
    simp only [List.all_eq_true] at hb
    show (numCells c).countP (outlierTest L U) = 0
    refine List.countP_eq_zero.mpr fun x hx => ?_
    simpa using hb x hx

/-- A frame of bounded columns has a zero outlier count. -/
theorem count_outliers_zero {df : DataFrame} {cols : List String}
    (h : ∀ n ∈ cols, ∀ c ∈ df, c.name = n → colBoundedB c = true) :
    count_outliers df cols = 0 := by
  unfold count_outliers
  suffices haux : ∀ l : List String,
      (∀ n ∈ l, ∀ c ∈ df, c.name = n → colBoundedB c = true) →
      ∀ acc : Nat, (l.foldl (fun acc n => acc + countOutCol (colByName df n)) acc) = acc by
    exact haux cols h 0
  intro l
  induction l with
  | nil => intro _ acc; rfl
  | cons n rest ih =>
    intro hl acc
    have hz : countOutCol (colByName df n) = 0 := by
      cases hfind : colByName df n with
      | none => rfl
      | some c =>
        have hc : c ∈ df := List.mem_of_find?_eq_some hfind
        have hn : c.name = n := by
          have := List.find?_some hfind
          simpa using this
        exact countOutCol_zero (hl n (by simp) c hc hn)
    rw [List.foldl_cons, hz]
    exact ih (fun m hm c hc he => hl m (List.mem_cons_of_mem n hm) c hc he) acc

/-- C5 (amended): whenever the pre-clip fences already bound all values of
the listed columns, `handle_outliers` is the identity and the outlier
count — both before clipping and recomputed after clipping — is 0.  The
monotonic non-increase asserted by the claim does not hold in general,
because the fences are recomputed on the clipped data
(see `C5_counterexample`). -/
theorem C5_bounded_clip_identity (df : DataFrame) (cols : List String)
    (h : ∀ n ∈ cols, ∀ c ∈ df, c.name = n → colBoundedB c = true) :
    handle_outliers df cols = df ∧
    count_outliers df cols = 0 ∧
    count_outliers (handle_outliers df cols) cols = 0 := by
  refine ⟨handle_outliers_id h, count_outliers_zero h, ?_⟩
  rw [handle_outliers_id h]
  exact count_outliers_zero h

/-- C5 counterexample: on the column `[-320, -320, 0, 0, 0, 0, 0, 96]` the
outlier count after clipping (with fences recomputed on the clipped data)
is 3, strictly greater than the pre-clip count of 2 — refuting the
claimed monotonic non-increase. -/
theorem C5_counterexample :
    count_outliers exC5 ["x"] = 2 ∧
    count_outliers (handle_outliers exC5 ["x"]) ["x"] = 3 ∧
    ¬(count_outliers (handle_outliers exC5 ["x"]) ["x"] ≤ count_outliers exC5 ["x"]) := by
  decide

/-- C5 witness: the amended statement applied to a concrete bounded
column. -/
theorem C5_witness :
    handle_outliers exClean ["a"] = exClean ∧
    count_outliers exClean ["a"] = 0 ∧
    count_outliers (handle_outliers exClean ["a"]) ["a"] = 0 :=
  C5_bounded_clip_identity exClean ["a"] (by decide)

/-- Field values of a successful run. -/
theorem autoprepmlRun_ok_fields {split : SplitFn} {df : DataFrame} {target : String}
    {r : PrepResult} (h : autoprepmlRun split df target = Except.ok r) :
    r.quality_checks = (compute_quality_score df (pipelineX df target)
      (outliersBefore df target) (outliersAfter df target)).2 ∧
    r.mode = (if modeIsUnsup df target = true then "unsupervised" else "supervised") ∧
    r.problem_type = pipelineProblemType df target := by
  simp only [autoprepmlRun] at h
  split at h
  · exact absurd h (by simp)
  · injection h with h2
    subst h2
    exact ⟨rfl, rfl, rfl⟩

/-- `modeIsUnsup` unfolded to the membership conditions of line 87. -/
theorem modeIsUnsup_iff (df : DataFrame) (target : String) :
    modeIsUnsup df target = true ↔
      (normTarget target ∈ idNames ∨
        normTarget target ∉ dfNames (normalize_columns df)) := by
  simp [modeIsUnsup]

/-- C1 (amended): the 30-point "Missing values handled" check passes iff
the feature frame as it stands when the scorer runs — after
deduplication, target removal and outlier clipping, but BEFORE the
transform's median / most-frequent imputation — has zero missing
entries.  The claim's reading (zero missing entries after the pipeline's
missing-value handling) is refuted by `C1_counterexample`. -/
theorem C1_missing_check (split : SplitFn) (df : DataFrame) (target : String)
    (r : PrepResult) (h : autoprepmlRun split df target = Except.ok r) :
    ("✔ Missing values handled" ∈ r.quality_checks ↔
      missingCount (pipelineX df target) = 0) := by
  rw [(autoprepmlRun_ok_fields h).1]
  exact mem_qc_missing df (pipelineX df target)
    (outliersBefore df target) (outliersAfter df target)

/-- C1 counterexample: on a frame with one missing entry the run succeeds,
the processed (imputed) feature dataset has zero missing entries, and yet
the 30-point check does not pass — refuting the claimed "if" direction. -/
theorem C1_counterexample :
    (autoprepmlRun trivSplit exC1 "id").toOption.isSome = true ∧
    missingCount (runXtrain (autoprepmlRun trivSplit exC1 "id")) = 0 ∧
    "✔ Missing values handled" ∉ runChecks (autoprepmlRun trivSplit exC1 "id") := by
  decide

/-- C1 witness: the amended equivalence applied to a concrete clean run. -/
theorem C1_witness :
    ("✔ Missing values handled" ∈
        ((autoprepmlRun trivSplit exClean "id").toOption.getD dummyResult).quality_checks ↔
      missingCount (pipelineX exClean "id") = 0) :=
  C1_missing_check trivSplit exClean "id" _ (by rfl)

/-- C2 (amended): the 20-point "Features encoded & scaled" check passes
iff the pre-encoding feature frame (after deduplication and, in
supervised mode, target removal) has at least as many columns as the raw
dataset — not the encoded output frame.  The claim's reading is refuted
by `C2_counterexample`. -/
theorem C2_encoded_check (split : SplitFn) (df : DataFrame) (target : String)
    (r : PrepResult) (h : autoprepmlRun split df target = Except.ok r) :
    ("✔ Features encoded & scaled" ∈ r.quality_checks ↔
      ncols df ≤ ncols (pipelineX df target)) := by
  rw [(autoprepmlRun_ok_fields h).1]
  exact mem_qc_encoded df (pipelineX df target)
    (outliersBefore df target) (outliersAfter df target)

/-- C2 counterexample: on a frame with an int and a bool column the
20-point check passes, yet the processed dataset has 1 column while the
raw dataset has 2 — the check is not equivalent to the processed column
count being at least the raw one. -/
theorem C2_counterexample :
    (autoprepmlRun trivSplit exC2 "id").toOption.isSome = true ∧
    "✔ Features encoded & scaled" ∈ runChecks (autoprepmlRun trivSplit exC2 "id") ∧
    runProcessedFeatures (autoprepmlRun trivSplit exC2 "id") = some 1 ∧
    runRawFeatures (autoprepmlRun trivSplit exC2 "id") = some 2 := by
  decide

/-- C2 witness: the amended equivalence applied to a concrete run. -/
theorem C2_witness :
    ("✔ Features encoded & scaled" ∈
        ((autoprepmlRun trivSplit exClean "id").toOption.getD dummyResult).quality_checks ↔
      ncols exClean ≤ ncols (pipelineX exClean "id")) :=
  C2_encoded_check trivSplit exClean "id" _ (by rfl)

/-- C4 (amended): the run is unsupervised iff the target string — after
trim, lowercase and space-to-underscore, without the character-stripping
step — is `"id"`, `"index"` or `"row_id"`, or is not among the normalized
column names.  Otherwise the run is supervised, and its problem type is
`"regression"` iff the label column's dtype is anything other than
`object` (so `category`, bool or datetime labels also yield regression):
classification is chosen only for `object` labels, not for every
non-numeric label as the claim states (see `C4_counterexample`). -/
theorem C4_mode_selection (split : SplitFn) (df : DataFrame) (target : String)
    (r : PrepResult) (h : autoprepmlRun split df target = Except.ok r) :
    (r.mode = "unsupervised" ↔
      (normTarget target ∈ idNames ∨
        normTarget target ∉ dfNames (normalize_columns df))) ∧
    (r.mode = "supervised" →
      (r.problem_type = "regression" ↔ (pipelineY df target).dtype ≠ Dtype.object)) := by
  obtain ⟨-, hmode, hpt⟩ := autoprepmlRun_ok_fields h
  rw [← modeIsUnsup_iff]
  by_cases hu : modeIsUnsup df target = true
  · rw [hu] at hmode
    simp only [if_pos rfl] at hmode
    constructor
    · simp [hmode, hu]
    · intro hsup
      rw [hmode] at hsup
      exact absurd hsup (by decide)
  · simp only [hu, if_neg Bool.false_ne_true] at hmode
    · constructor
      · simp [hmode, hu]
      · intro _
        rw [hpt, pipelineProblemType]
        rw [if_neg (by simp [hu])]
        by_cases hd : (pipelineY df target).dtype ≠ Dtype.object
        · simp [hd]
        · simp only [hd, if_neg]
          simp only [iff_false]
          intro hcl
          exact absurd hcl (by decide)

/-- C4 counterexample: with a `category`-dtype label (string-valued, not
numeric storage) the run is supervised and the code selects
`"regression"`, where the claim requires classification for any
non-numeric label storage type. -/
theorem C4_counterexample :
    (autoprepmlRun trivSplit exC4 "t").toOption.map PrepResult.mode = some "supervised" ∧
    runProblemType (autoprepmlRun trivSplit exC4 "t") = some "regression" ∧
    (pipelineY exC4 "t").dtype = Dtype.category ∧
    Dtype.category.isNumeric = false := by
  decide

/-- C4 witness: the amended statement applied to a concrete supervised
regression run. -/
theorem C4_witness :
    ((((autoprepmlRun trivSplit exReg "t").toOption.getD dummyResult).mode = "unsupervised" ↔
      (normTarget "t" ∈ idNames ∨
        normTarget "t" ∉ dfNames (normalize_columns exReg))) ∧
    (((autoprepmlRun trivSplit exReg "t").toOption.getD dummyResult).mode = "supervised" →
      ((((autoprepmlRun trivSplit exReg "t").toOption.getD dummyResult).problem_type
          = "regression") ↔ (pipelineY exReg "t").dtype ≠ Dtype.object))) :=
  C4_mode_selection trivSplit exReg "t" _ (by rfl)

/-- C6: in a supervised classification run in which some label class has
fewer than 2 members, the pipeline surfaces the stratified-split error —
the `ValueError` sklearn raises for the least populated class, which
propagates to the caller as a distinguishable error value rather than a
silent unstratified fallback. -/
theorem C6_stratified_split_error (split : SplitFn) (df : DataFrame) (target : String)
    (hclass : pipelineProblemType df target = "classification")
    (hsing : hasSingletonClass (pipelineY df target) = true) :
    autoprepmlRun split df target = Except.error stratMsg := by
  have hu : modeIsUnsup df target = false := by
    by_contra hne
    have hu2 : modeIsUnsup df target = true := by
      cases hmu : modeIsUnsup df target
      · exact absurd hmu hne
      · rfl
    rw [pipelineProblemType, if_pos hu2] at hclass
    exact absurd hclass (by decide)
  simp only [autoprepmlRun, hu, hclass, hsing]
  simp

/-- C6 witness: a concrete classification frame whose class `"b"` has a
single member makes the run return the stratified-split error. -/
theorem C6_witness :
    pipelineProblemType exC6 "t" = "classification" ∧
    hasSingletonClass (pipelineY exC6 "t") = true ∧
    autoprepmlRun trivSplit exC6 "t" = Except.error stratMsg :=
  ⟨by decide, by decide, C6_stratified_split_error trivSplit exC6 "t" (by decide) (by decide)⟩

/-- C3: two runs whose split functions assign the same training partition
fit identical statistics (imputation medians, most-frequent values,
scaler means/variances, one-hot vocabularies), regardless of the test
partition's content; and the test output is exactly the fitted transform
applied to the test partition — the statistics are fit once on the train
partition and reused, never refit, on the test partition. -/
theorem C3_fit_once_no_leakage (s1 s2 : SplitFn) (df : DataFrame) (target : String)
    (htr : (s1 (pipelineX df target) (pipelineY df target)).Xtr =
           (s2 (pipelineX df target) (pipelineY df target)).Xtr) :
    runStats (autoprepmlRun s1 df target) = runStats (autoprepmlRun s2 df target) ∧
    runXtest (autoprepmlRun s1 df target) =
      (runStats (autoprepmlRun s1 df target)).map fun st =>
        if modeIsUnsup df target then none
        else some (transformDF st (s1 (pipelineX df target) (pipelineY df target)).Xte) := by
  simp only [autoprepmlRun]
  split
  · constructor <;> rfl
  · by_cases hu : modeIsUnsup df target = true
    · refine ⟨?_, ?_⟩ <;>
        simp [runStats, runXtest, hu, Except.toOption, Function.comp]
    · have hu2 : modeIsUnsup df target = false := by
        cases hmu : modeIsUnsup df target
        · rfl
        · exact absurd hmu hu
      refine ⟨?_, ?_⟩ <;>
        simp [runStats, runXtest, hu2, htr, Except.toOption, Function.comp]

/-- C3 witness: two concrete split assignments with the same training
partition but different test partitions fit identical statistics. -/
theorem C3_witness :
    runStats (autoprepmlRun trivSplit exReg "t") =
      runStats (autoprepmlRun otherSplit exReg "t") :=
  (C3_fit_once_no_leakage trivSplit otherSplit exReg "t" rfl).1
